import Mathlib

/-!
Shallow embedding of the order/payment backend
(src/index.ts, src/services/orderService.ts) and proofs about its
order-lifecycle reconciliation, stock reservation and refund sub-protocol.

Modelling conventions:
* money (Postgres decimal(10,2) parsed by JS parseFloat) is `Rat`;
* DB `varchar` columns that may be NULL are `Option String`; JS truthiness
  of a string (`if (s)`) is `truthyStr`: NULL/undefined and the empty
  string are falsy;
* JS truthiness of a number (`if (n)`) is falsy on 0, modelled by
  `truthyNum` on `Option Rat` (absent or 0 is falsy);
* the `orders` table is a `List Order`; a SQL `UPDATE ... WHERE id = $n`
  is a `List.map` touching exactly the matching rows; `SELECT ... WHERE`
  returning `rows[0]` is `List.find?`;
* a timestamp column only ever compared against NULL (`refunded_at`) is
  modelled as a `Bool` flag (set / not set);
* each HTTP handler is a pure function from the database value (plus the
  data that the external gateway returned for the single call the handler
  makes) to the HTTP status / response and the new database value.
-/

namespace MPBack

/-- Money amounts: exact rationals standing for the JS numbers obtained by
parseFloat on decimal(10,2) columns. -/
abbrev Money := Rat

/-- Row of the products table (migrations/initial-schema: stock is a plain
integer column with no CHECK constraint, so the type is Int and nothing in
the schema prevents negative values). -/
structure Product where
  id : Nat
  name : String
  price : Money
  stock : Int
  deriving Repr, DecidableEq

/-- Row of the orders table, with the columns the reconciliation logic
reads or writes (initial schema plus the payment and refund migrations). -/
structure Order where
  id : Nat
  customer_name : String
  customer_email : String
  total : Money
  status : String
  mercadopago_preference_id : Option String
  mercadopago_payment_id : Option String
  payment_id : Option String
  payment_status : Option String
  refund_id : Option String
  refunded_at : Bool
  refund_amount : Option Money
  refund_status : Option String
  deriving Repr, DecidableEq

/-- Row of the order_items table. -/
structure OrderItem where
  order_id : Nat
  product_id : Nat
  quantity : Nat
  price : Money
  deriving Repr, DecidableEq

/-- JS truthiness of an optional string: undefined/NULL and the empty
string are falsy. -/
def truthyStr : Option String → Bool
  | none => false
  | some s => s ≠ ""

/-- JS truthiness of an optional number: undefined/NULL and 0 are falsy. -/
def truthyNum : Option Rat → Bool
  | none => false
  | some a => a ≠ 0

/-- JS expression `s || d` on an optional string: the default replaces an
absent or empty (falsy) value. -/
def jsOrStr (s : Option String) (d : String) : String :=
  match s with
  | none => d
  | some t => if t = "" then d else t

/-- JS expression `x || d` on an optional number: the default replaces an
absent or zero (falsy) value. -/
def jsOrNum (x : Option Rat) (d : Rat) : Rat :=
  match x with
  | none => d
  | some a => if a = 0 then d else a

/-- Numeric value of a list of decimal digit characters. -/
def digitsVal (ds : List Char) : Nat :=
  ds.foldl (fun acc c => 10 * acc + (c.toNat - 48)) 0

/-- JS parseInt on the strings this backend actually feeds it (nonnegative
decimal strings such as `order.id.toString()`): the longest digit prefix,
or none (NaN) when the string starts with no digit. -/
def jsParseInt (s : String) : Option Nat :=
  let ds := s.data.takeWhile Char.isDigit
  if ds.isEmpty then none else some (digitsVal ds)

/-- Lookup of orderService.getOrderById / the SQL
`SELECT ... FROM orders WHERE id = $1` (first matching row). -/
def getOrder (db : List Order) (orderId : Nat) : Option Order :=
  db.find? (fun o => o.id == orderId)

/-- orderService.getOrderByPaymentId:
`SELECT * FROM orders WHERE mercadopago_payment_id = $1`. -/
def getOrderByPaymentId (db : List Order) (paymentId : String) : Option Order :=
  db.find? (fun o => o.mercadopago_payment_id == some paymentId)

/-- orderService.updateOrderStatus: when both paymentId and paymentStatus
are (truthily) present, one UPDATE writes status, payment_id,
payment_status and mercadopago_payment_id; otherwise only status. -/
def updateOrderStatus (db : List Order) (orderId : Nat) (status : String)
    (paymentId : Option String) (paymentStatus : Option String) : List Order :=
  if truthyStr paymentId ∧ truthyStr paymentStatus then
    db.map (fun o =>
      if o.id == orderId then
        { o with status := status, payment_id := paymentId,
                 payment_status := paymentStatus,
                 mercadopago_payment_id := paymentId }
      else o)
  else
    db.map (fun o => if o.id == orderId then { o with status := status } else o)

/-- Status switch of POST /api/webhook (index.ts lines 529-543): gateway
payment status to order status. -/
def webhookStatusSwitch (paymentStatus : String) : String :=
  if paymentStatus = "approved" then "completed"
  else if paymentStatus = "pending" ∨ paymentStatus = "in_process" then "processing"
  else if paymentStatus = "rejected" ∨ paymentStatus = "cancelled" then "cancelled"
  else "pending"

/-- Status switch of POST /api/dev/simulate-webhook/:orderId
(index.ts lines 578-590). -/
def devStatusSwitch (payment_status : String) : String :=
  if payment_status = "approved" then "completed"
  else if payment_status = "pending" then "processing"
  else if payment_status = "rejected" then "cancelled"
  else "pending"

/-- Mapping table of spec section 4.4, written from the words of the spec
(approved to completed; pending, in_process to processing; rejected,
cancelled to cancelled; anything else to pending), for refinement
comparison with the code switches. -/
def specStatusTable (gatewayStatus : String) : String :=
  if gatewayStatus = "approved" then "completed"
  else if gatewayStatus = "pending" then "processing"
  else if gatewayStatus = "in_process" then "processing"
  else if gatewayStatus = "rejected" then "cancelled"
  else if gatewayStatus = "cancelled" then "cancelled"
  else "pending"

/-- Payment object fetched from the gateway by `payment.get` in the
webhook handler: the fields the handler reads. -/
structure PaymentInfo where
  id : Nat
  status : Option String
  external_reference : Option String
  deriving Repr, DecidableEq

/-- Resolution of the order id in the webhook handler:
`parseInt(paymentInfo.external_reference || '0')` followed by the falsy
check `if (!orderId)` (NaN or 0 rejects). -/
def resolveOrderId (external_reference : Option String) : Option Nat :=
  match jsParseInt (jsOrStr external_reference "0") with
  | none => none
  | some 0 => none
  | some n => some n

/-- Normal-payment branch of POST /api/webhook (index.ts lines 506-548),
after the gateway returned `paymentInfo` for the notified payment id:
resolve the order from external_reference, map the (defaulted) payment
status through the switch, and apply updateOrderStatus. Returns the HTTP
status sent and the new orders table. -/
def webhookPaymentHandler (db : List Order) (paymentInfo : PaymentInfo) :
    Nat × List Order :=
  match resolveOrderId paymentInfo.external_reference with
  | none => (400, db)
  | some orderId =>
    let paymentStatus := jsOrStr paymentInfo.status "pending"
    let orderStatus := webhookStatusSwitch paymentStatus
    (200, updateOrderStatus db orderId orderStatus
            (some (Nat.repr paymentInfo.id)) (some paymentStatus))

/-- Row effect of the refund-confirmation UPDATE
`SET status = 'refunded', payment_status = 'refunded' WHERE id = $3`. -/
def markRefundedRow (targetId : Nat) (r : Order) : Order :=
  if r.id == targetId then
    { r with status := "refunded", payment_status := some "refunded" }
  else r

/-- payment.refunded branch of POST /api/webhook (index.ts lines 476-503):
resolve the order by the stored mercadopago_payment_id (the webhook body
carries only the payment id, no status is read from it) and set status and
payment_status to refunded in one UPDATE (the fetched payment info is only
logged). Returns the HTTP status sent and the new orders table. -/
def webhookRefundedHandler (db : List Order) (paymentId : Nat) :
    Nat × List Order :=
  match getOrderByPaymentId db (Nat.repr paymentId) with
  | none => (404, db)
  | some o => (200, db.map (markRefundedRow o.id))

/-- Gateway-side failure of a MercadoPago SDK call: the HTTP-like status
code (absent for locally thrown errors, which carry no status field) and
the diagnostic message. -/
structure GatewayError where
  status : Option Nat
  message : String
  deriving Repr, DecidableEq

/-- Result object of `paymentRefund.create`: the fields the handler reads.
The id is a JS number, so the falsy check `if (!refundResult.id)` also
rejects 0. -/
structure RefundResult where
  id : Option Nat
  status : Option String
  amount : Option Rat
  deriving Repr, DecidableEq

/-- Responses of POST /api/orders/:id/refund, one constructor per exit of
the handler (index.ts lines 242-377). The two 400 already-refunded
rejections are distinguished because their bodies differ. -/
inductive RefundResponse where
  | orderNotFound
  | noAssociatedPayment
  | alreadyRefundedRef (refund_id : String)
  | alreadyRefundedStatus
  | invalidRefundAmount (total : Money)
  | refundSuccess (refund_id : Nat) (status : Option String) (amount : Money)
      (message : String)
  | notRefundable (details : String)
  | paymentNotFoundAtGateway
  | refundFailed (details : String)
  deriving Repr, DecidableEq

/-- Outcome of one POST /api/orders/:id/refund call: the response, the
orders table afterwards, whether `paymentRefund.create` was reached, and
the amount put in that call's body (none for a full refund). -/
structure RefundOutcome where
  response : RefundResponse
  db : List Order
  gatewayCalled : Bool
  gatewayAmount : Option Rat
  deriving Repr, DecidableEq

/-- Row effect of the refund-persistence UPDATE (index.ts lines 328-345):
status, payment_status, refund_id, refunded_at, refund_amount and
refund_status written in one statement on the matching order row. -/
def refundUpdateRow (orderId : Nat) (newStatus : String) (rid : Nat)
    (refundAmount : Money) (refundStatus : Option String) (o : Order) : Order :=
  if o.id == orderId then
    { o with status := newStatus, payment_status := some "refunded",
             refund_id := some (Nat.repr rid), refunded_at := true,
             refund_amount := some refundAmount, refund_status := refundStatus }
  else o

/-- POST /api/orders/:id/refund (index.ts lines 242-377). `amount` is the
optional JSON body field; `gwResult` is what the single
`paymentRefund.create` call returns when it is reached. Validations run in
source order with first failure winning; the thrown
"Refund ID not returned" error lands in the same catch block as gateway
errors and, carrying no status field, maps to the generic 500. -/
def requestRefund (db : List Order) (orderId : Nat) (amount : Option Rat)
    (gwResult : Except GatewayError RefundResult) : RefundOutcome :=
  match getOrder db orderId with
  | none => ⟨.orderNotFound, db, false, none⟩
  | some order =>
    if ¬ truthyStr order.payment_id then
      ⟨.noAssociatedPayment, db, false, none⟩
    else if truthyStr order.refund_id then
      ⟨.alreadyRefundedRef (order.refund_id.getD ""), db, false, none⟩
    else if order.status = "refunded" then
      ⟨.alreadyRefundedStatus, db, false, none⟩
    else if truthyNum amount ∧
        (amount.getD 0 ≤ 0 ∨ order.total < amount.getD 0) then
      ⟨.invalidRefundAmount order.total, db, false, none⟩
    else
      let sentAmount := if truthyNum amount then amount else none
      match gwResult with
      | .error e =>
        if e.status = some 400 then
          ⟨.notRefundable e.message, db, true, sentAmount⟩
        else if e.status = some 404 then
          ⟨.paymentNotFoundAtGateway, db, true, sentAmount⟩
        else
          ⟨.refundFailed e.message, db, true, sentAmount⟩
      | .ok r =>
        let refundAmount := jsOrNum r.amount order.total
        let newStatus :=
          if order.total ≤ refundAmount then "refunded" else "partially_refunded"
        match r.id with
        | none =>
          ⟨.refundFailed "Refund ID not returned from MercadoPago", db, true,
            sentAmount⟩
        | some rid =>
          if rid = 0 then
            ⟨.refundFailed "Refund ID not returned from MercadoPago", db, true,
              sentAmount⟩
          else
          let message :=
            if r.status = some "approved" then "Reembolso procesado exitosamente"
            else "Reembolso en proceso"
          ⟨.refundSuccess rid r.status refundAmount message,
            db.map (refundUpdateRow orderId newStatus rid refundAmount r.status),
            true, sentAmount⟩

/-- Whole database: products, orders, order items, and the serial counter
feeding the orders primary key. -/
structure Store where
  products : List Product
  orders : List Order
  order_items : List OrderItem
  nextOrderId : Nat
  deriving Repr, DecidableEq

/-- One line of the POST /api/orders request body (after zod validation:
positive product_id and quantity). -/
structure OrderLineReq where
  product_id : Nat
  quantity : Nat
  deriving Repr, DecidableEq

/-- Order line priced by the handler: catalog price snapshot at request
time. -/
structure PricedItem where
  product_id : Nat
  quantity : Nat
  price : Money
  deriving Repr, DecidableEq

/-- Failure exits of the POST /api/orders validation loop. -/
inductive CreateOrderFailure where
  | productNotFound (product_id : Nat)
  | insufficientStock (name : String) (available : Int)
  deriving Repr, DecidableEq

/-- productService.getProductById:
`SELECT * FROM products WHERE id = $1`. -/
def getProductById (products : List Product) (productId : Nat) : Option Product :=
  products.find? (fun p => p.id == productId)

/-- Validation loop of POST /api/orders (index.ts lines 85-107): for every
requested line fetch the product, reject if missing or if stock < quantity,
snapshot the price and accumulate the total. This phase only reads; no
stock is decremented here. -/
def checkAndPriceItems (products : List Product) :
    List OrderLineReq → Except CreateOrderFailure (List PricedItem × Money)
  | [] => .ok ([], 0)
  | item :: rest =>
    match getProductById products item.product_id with
    | none => .error (.productNotFound item.product_id)
    | some product =>
      if product.stock < (item.quantity : Int) then
        .error (.insufficientStock product.name product.stock)
      else
        match checkAndPriceItems products rest with
        | .error e => .error e
        | .ok (items, total) =>
          .ok (⟨product.id, item.quantity, product.price⟩ :: items,
               product.price * (item.quantity : Rat) + total)

/-- SQL `UPDATE products SET stock = stock - $1 WHERE id = $2` of
orderService.createOrder: unconditional decrement, no sufficiency
re-check. -/
def decrementStock (products : List Product) (productId : Nat)
    (quantity : Nat) : List Product :=
  products.map (fun p =>
    if p.id == productId then { p with stock := p.stock - (quantity : Int) }
    else p)

/-- orderService.createOrder transaction: insert the order row with status
pending, insert every order_items row, and decrement each product's stock
by the line quantity. (Committed atomically; the model applies it as one
step.) -/
def createOrder (s : Store) (customerName customerEmail : String)
    (items : List PricedItem) (total : Money) : Store × Order :=
  let order : Order :=
    { id := s.nextOrderId, customer_name := customerName,
      customer_email := customerEmail, total := total, status := "pending",
      mercadopago_preference_id := none, mercadopago_payment_id := none,
      payment_id := none, payment_status := none, refund_id := none,
      refunded_at := false, refund_amount := none, refund_status := none }
  let products2 := items.foldl
    (fun ps it => decrementStock ps it.product_id it.quantity) s.products
  let newItems := items.map (fun it =>
    OrderItem.mk order.id it.product_id it.quantity it.price)
  ({ products := products2, orders := s.orders ++ [order],
     order_items := s.order_items ++ newItems,
     nextOrderId := s.nextOrderId + 1 }, order)

/-- POST /api/orders (index.ts lines 76-169) up to and including the
createOrder transaction: validate and price every line against the current
catalog, then run the transaction. (The later gateway preference creation
and updateOrderPreferenceId touch neither products nor order rows other
than the preference id, and are outside the stock claims.) On a validation
failure the handler returns before createOrder, so the store is
unchanged. -/
def postOrdersHandler (s : Store) (customer_name customer_email : String)
    (items : List OrderLineReq) : Except CreateOrderFailure Order × Store :=
  match checkAndPriceItems s.products items with
  | .error e => (.error e, s)
  | .ok (priced, total) =>
    let r := createOrder s customer_name customer_email priced total
    (.ok r.2, r.1)

/-- Sequence of POST /api/orders calls applied one after another (the
"any sequence of createOrder calls" of the stock claims): each element is
customer name, customer email, and the request lines. -/
def runOrders (s : Store)
    (reqs : List (String × String × List OrderLineReq)) : Store :=
  reqs.foldl (fun st r => (postOrdersHandler st r.1 r.2.1 r.2.2).2) s

/-- POST /api/dev/simulate-webhook/:orderId (index.ts lines 561-607),
after the production guard and id parsing: map the body's payment_status
through the dev switch and apply updateOrderStatus with the simulated
payment id. -/
def devSimulateHandler (db : List Order) (orderId : Nat)
    (payment_status : String) (fakePaymentId : String) : List Order :=
  updateOrderStatus db orderId (devStatusSwitch payment_status)
    (some fakePaymentId) (some payment_status)

/-- Total quantity requested for product `i` across a priced item list
(used to characterize the per-transaction stock decrement). -/
def reqQtyPriced : List PricedItem → Nat → Nat
  | [], _ => 0
  | it :: rest, i =>
    (if it.product_id = i then it.quantity else 0) + reqQtyPriced rest i

/-- Sample order row used to instantiate witnesses and counterexamples. -/
def sampleOrder : Order :=
  { id := 1, customer_name := "Ana", customer_email := "ana@example.com",
    total := 200, status := "completed", mercadopago_preference_id := none,
    mercadopago_payment_id := some "5", payment_id := some "5",
    payment_status := some "approved", refund_id := none,
    refunded_at := false, refund_amount := none, refund_status := none }

/-- Sample store with one product of stock 1, used to instantiate
witnesses and counterexamples. -/
def sampleStore : Store :=
  { products := [{ id := 1, name := "Laptop", price := 10, stock := 1 }],
    orders := [], order_items := [], nextOrderId := 1 }

/-! ### Helper lemmas -/

theorem toDigitsCore_len_ge (b : Nat) :
    ∀ (f n : Nat) (l : List Char), l.length ≤ (Nat.toDigitsCore b f n l).length := by
  intro f
  induction f with
  | zero => intro n l; simp [Nat.toDigitsCore]
  | succ f ih =>
    intro n l
    simp only [Nat.toDigitsCore]
    by_cases h : n / b = 0
    · simp [h]
    · simp only [h, if_false]
      calc l.length ≤ (Nat.digitChar (n % b) :: l).length := by simp
        _ ≤ _ := ih (n / b) (Nat.digitChar (n % b) :: l)

/-- The decimal representation of a natural number is never the empty
string (needed because the stored refund and payment references are
`id.toString()` and the handlers test them with JS truthiness). -/
theorem nat_repr_ne_empty (n : Nat) : Nat.repr n ≠ "" := by
  intro h
  have hd : Nat.toDigits 10 n = [] := by
    have := congrArg String.data h
    simpa [Nat.repr, List.asString] using this
  have h1 : 1 ≤ (Nat.toDigits 10 n).length := by
    simp only [Nat.toDigits, Nat.toDigitsCore]
    by_cases hnb : n / 10 = 0
    · simp [hnb]
    · simp only [hnb, if_false]
      have := toDigitsCore_len_ge 10 n (n / 10) [Nat.digitChar (n % 10)]
      simpa using this
  rw [hd] at h1
  simp at h1

theorem truthyStr_repr (n : Nat) : truthyStr (some (Nat.repr n)) = true := by
  simp [truthyStr, nat_repr_ne_empty]

/-- Lookup by id commutes with an id-preserving row transformation. -/
theorem getOrder_map (f : Order → Order) (hf : ∀ o, (f o).id = o.id)
    (db : List Order) (n : Nat) :
    getOrder (db.map f) n = (getOrder db n).map f := by
  induction db with
  | nil => rfl
  | cons a l ih =>
    have h2 : ((f a).id == n) = (a.id == n) := by rw [hf a]
    simp only [getOrder, List.map_cons, List.find?] at *
    rw [h2]
    cases hb : (a.id == n) <;> simp [hb, ih]

/-- Lookup by stored payment reference commutes with a transformation
preserving that column. -/
theorem getOrderByPaymentId_map (f : Order → Order)
    (hf : ∀ o, (f o).mercadopago_payment_id = o.mercadopago_payment_id)
    (db : List Order) (pid : String) :
    getOrderByPaymentId (db.map f) pid = (getOrderByPaymentId db pid).map f := by
  induction db with
  | nil => rfl
  | cons a l ih =>
    have h2 : ((f a).mercadopago_payment_id == some pid)
        = (a.mercadopago_payment_id == some pid) := by rw [hf a]
    simp only [getOrderByPaymentId, List.map_cons, List.find?] at *
    rw [h2]
    cases hb : (a.mercadopago_payment_id == some pid) <;> simp [hb, ih]

/-- A row update guarded by an id that matches no row is the identity on
the table. -/
theorem map_row_update_of_not_found (g : Order → Order) (db : List Order)
    (n : Nat) (h : getOrder db n = none) :
    db.map (fun o => if o.id == n then g o else o) = db := by
  induction db with
  | nil => rfl
  | cons a l ih =>
    simp only [getOrder, List.find?] at h ih
    cases hb : (a.id == n)
    · rw [hb] at h
      simp only [List.map_cons, hb, Bool.false_eq_true, if_false]
      rw [ih h]
    · rw [hb] at h
      simp at h

/-- With distinct product ids, looking a member product up by its id finds
exactly that row. -/
theorem getProductById_of_nodup (ps : List Product)
    (hnd : (ps.map Product.id).Nodup) (p : Product) (hp : p ∈ ps) :
    getProductById ps p.id = some p := by
  induction ps with
  | nil => exact absurd hp (List.not_mem_nil p)
  | cons a l ih =>
    rw [List.map_cons] at hnd
    have hnd2 := List.nodup_cons.mp hnd
    rcases List.mem_cons.mp hp with rfl | hmem
    · simp [getProductById, List.find?]
    · have hne : (a.id == p.id) = false := by
        apply beq_eq_false_iff_ne.mpr
        intro hid
        exact hnd2.1 (hid ▸ List.mem_map.mpr ⟨p, hmem, rfl⟩)
      simp only [getProductById, List.find?] at *
      rw [hne]
      simp only []
      exact ih hnd2.2 hmem

/-- The webhook status switch computes exactly the mapping table written
in spec section 4.4. -/
theorem webhookStatusSwitch_eq_specStatusTable (s : String) :
    webhookStatusSwitch s = specStatusTable s := by
  unfold webhookStatusSwitch specStatusTable
  split_ifs <;> simp_all

/-- The defaulted payment status `paymentInfo.status || 'pending'` is
never the empty string. -/
theorem jsOrStr_pending_ne_empty (s : Option String) : jsOrStr s "pending" ≠ "" := by
  cases s with
  | none => simp [jsOrStr]
  | some t => by_cases h : t = "" <;> simp [jsOrStr, h]

/-- A successful lookup returns a row whose id matches the key. -/
theorem getOrder_eq_some_beq (db : List Order) (n : Nat) (o : Order)
    (ho : getOrder db n = some o) : (o.id == n) = true := by
  have h1 : List.find? (fun r => r.id == n) db = some o := ho
  have h2 := List.find?_some h1
  exact h2

/-- Whatever branch updateOrderStatus takes, the targeted row's status
column afterwards is the written status. -/
theorem getOrder_updateOrderStatus_status (db : List Order) (n : Nat)
    (st : String) (pid pst : Option String) (o : Order)
    (ho : getOrder db n = some o) :
    (getOrder (updateOrderStatus db n st pid pst) n).map Order.status = some st := by
  have hid : o.id = n := by simpa using getOrder_eq_some_beq db n o ho
  unfold updateOrderStatus
  split_ifs with h
  · rw [getOrder_map _ (fun r => by by_cases hr : (r.id == n) = true <;> simp [hr]) db n, ho]
    simp [hid]
  · rw [getOrder_map _ (fun r => by by_cases hr : (r.id == n) = true <;> simp [hr]) db n, ho]
    simp [hid]

/-- C7: payment reconciliation is idempotent. Applying updateOrderStatus
twice with the same order id, mapped status, payment id and payment status
yields exactly the same orders table (hence the same status,
payment_status and payment reference) as applying it once. -/
theorem updateOrderStatus_idem (db : List Order) (orderId : Nat)
    (status : String) (paymentId paymentStatus : Option String) :
    updateOrderStatus
        (updateOrderStatus db orderId status paymentId paymentStatus)
        orderId status paymentId paymentStatus
      = updateOrderStatus db orderId status paymentId paymentStatus := by
  unfold updateOrderStatus
  by_cases h : truthyStr paymentId = true ∧ truthyStr paymentStatus = true
  · rw [if_pos h, if_pos h, List.map_map]
    apply List.map_congr_left
    intro o _
    by_cases ho : (o.id == orderId) = true <;> simp [Function.comp, ho]
  · rw [if_neg h, if_neg h, List.map_map]
    apply List.map_congr_left
    intro o _
    by_cases ho : (o.id == orderId) = true <;> simp [Function.comp, ho]

/-- C5: for every gateway payment status (any nonempty status string) the
normal webhook path writes exactly the order status given by the spec
section 4.4 table, and writes status, payment_status and the payment
reference in the single updateOrderStatus update, acknowledging 200. -/
theorem webhook_status_table_compliance (db : List Order) (p : PaymentInfo)
    (t : String) (n : Nat) (o : Order)
    (hst : p.status = some t) (hne : t ≠ "")
    (hres : resolveOrderId p.external_reference = some n)
    (ho : getOrder db n = some o) :
    (webhookPaymentHandler db p).1 = 200 ∧
    getOrder (webhookPaymentHandler db p).2 n =
      some { o with status := specStatusTable t,
                    payment_id := some (Nat.repr p.id),
                    payment_status := some t,
                    mercadopago_payment_id := some (Nat.repr p.id) } := by
  have hj : jsOrStr p.status "pending" = t := by rw [hst]; simp [jsOrStr, hne]
  have hid : o.id = n := by simpa using getOrder_eq_some_beq db n o ho
  simp only [webhookPaymentHandler, hres, hj]
  refine ⟨by trivial, ?_⟩
  unfold updateOrderStatus
  rw [if_pos ⟨truthyStr_repr _, by simp [truthyStr, hne]⟩]
  rw [getOrder_map _ (fun r => by by_cases hr : (r.id == n) = true <;> simp [hr]) db n, ho]
  simp [hid, webhookStatusSwitch_eq_specStatusTable]

/-- Witness for C5 at gateway status approved on a concrete table. -/
theorem webhook_status_table_compliance_witness :
    (webhookPaymentHandler [sampleOrder] ⟨5, some "approved", some "1"⟩).1 = 200 ∧
    getOrder (webhookPaymentHandler [sampleOrder] ⟨5, some "approved", some "1"⟩).2 1 =
      some { sampleOrder with status := specStatusTable "approved",
                              payment_id := some (Nat.repr 5),
                              payment_status := some "approved",
                              mercadopago_payment_id := some (Nat.repr 5) } :=
  webhook_status_table_compliance [sampleOrder] ⟨5, some "approved", some "1"⟩
    "approved" 1 sampleOrder rfl (by decide) (by decide) (by decide)

/-- C1 counterexample: an order already in the terminal status refunded
that receives a stale pending payment event is regressed to processing by
the webhook reconciliation (updateOrderStatus has no terminal-state
guard). -/
theorem webhook_regresses_refunded_counterexample :
    ({ sampleOrder with status := "refunded" } : Order).status = "refunded"
    ∧ (getOrder (webhookPaymentHandler
          [{ sampleOrder with status := "refunded" }]
          ⟨5, some "pending", some "1"⟩).2 1).map Order.status
        = some "processing" := by
  constructor
  · rfl
  · rfl

/-- C1 (amended): the webhook reconciliation overwrites the order status
with the mapped status unconditionally, so an order in a terminal state
(refunded or cancelled) receiving a stale non-terminal payment event is
regressed to the mapped status instead of being protected. -/
theorem webhook_overwrites_terminal (db : List Order) (p : PaymentInfo)
    (n : Nat) (o : Order)
    (hres : resolveOrderId p.external_reference = some n)
    (ho : getOrder db n = some o)
    (_hterm : o.status = "refunded" ∨ o.status = "cancelled") :
    (getOrder (webhookPaymentHandler db p).2 n).map Order.status
      = some (webhookStatusSwitch (jsOrStr p.status "pending")) := by
  simp only [webhookPaymentHandler, hres]
  exact getOrder_updateOrderStatus_status db n _ _ _ o ho

/-- Witness for the amended C1: a concrete refunded order hit by a stale
pending event. -/
theorem webhook_overwrites_terminal_witness :
    (getOrder (webhookPaymentHandler
        [{ sampleOrder with status := "refunded" }]
        ⟨5, some "pending", some "1"⟩).2 1).map Order.status
      = some (webhookStatusSwitch (jsOrStr (some "pending") "pending")) :=
  webhook_overwrites_terminal [{ sampleOrder with status := "refunded" }]
    ⟨5, some "pending", some "1"⟩ 1 { sampleOrder with status := "refunded" }
    (by decide) (by decide) (Or.inl rfl)

/-- C6 counterexample: the dev simulate-webhook switch disagrees with the
webhook switch on in_process and on cancelled, and the dev endpoint
persists pending for an in_process event where the webhook mapping gives
processing. -/
theorem dev_simulate_mapping_counterexample :
    devStatusSwitch "in_process" = "pending"
    ∧ webhookStatusSwitch "in_process" = "processing"
    ∧ devStatusSwitch "cancelled" = "pending"
    ∧ webhookStatusSwitch "cancelled" = "cancelled"
    ∧ (getOrder (devSimulateHandler [sampleOrder] 1 "in_process" "SIMULATED_1") 1).map
        Order.status = some "pending" := by
  refine ⟨rfl, rfl, rfl, rfl, rfl⟩

/-- C6 (amended): the dev simulate endpoint applies the same
status mapping as the webhook for every payment_status other than
in_process and cancelled; those two it maps to pending, where the webhook
maps them to processing and cancelled respectively. -/
theorem dev_simulate_mapping_agreement (s : String)
    (h1 : s ≠ "in_process") (h2 : s ≠ "cancelled") :
    devStatusSwitch s = webhookStatusSwitch s := by
  unfold devStatusSwitch webhookStatusSwitch
  split_ifs <;> simp_all

/-- Witness for the amended C6 at payment_status approved. -/
theorem dev_simulate_mapping_agreement_witness :
    devStatusSwitch "approved" = webhookStatusSwitch "approved" :=
  dev_simulate_mapping_agreement "approved" (by decide) (by decide)

/-- C10: a payment webhook whose fetched payment carries an
external_reference resolving to a nonzero order id that matches no order
row is still acknowledged with HTTP 200, and no order row is modified. -/
theorem webhook_unknown_order_ack (db : List Order) (p : PaymentInfo) (n : Nat)
    (hres : resolveOrderId p.external_reference = some n)
    (hnone : getOrder db n = none) :
    webhookPaymentHandler db p = (200, db) := by
  simp only [webhookPaymentHandler, hres]
  unfold updateOrderStatus
  split_ifs with h
  · rw [map_row_update_of_not_found _ db n hnone]
  · rw [map_row_update_of_not_found _ db n hnone]

/-- Witness for C10: order table holding only order 1, event pointing at
order 2. -/
theorem webhook_unknown_order_ack_witness :
    webhookPaymentHandler [sampleOrder] ⟨5, some "approved", some "2"⟩
      = (200, [sampleOrder]) :=
  webhook_unknown_order_ack [sampleOrder] ⟨5, some "approved", some "2"⟩ 2
    (by decide) (by decide)

theorem markRefundedRow_id (t : Nat) (r : Order) :
    (markRefundedRow t r).id = r.id := by
  unfold markRefundedRow
  by_cases hb : (r.id == t) = true <;> simp [hb]

theorem markRefundedRow_payment (t : Nat) (r : Order) :
    (markRefundedRow t r).mercadopago_payment_id = r.mercadopago_payment_id := by
  unfold markRefundedRow
  by_cases hb : (r.id == t) = true <;> simp [hb]

theorem markRefundedRow_idem (t : Nat) (r : Order) :
    markRefundedRow t (markRefundedRow t r) = markRefundedRow t r := by
  unfold markRefundedRow
  by_cases hb : (r.id == t) = true <;> simp [hb]

/-- Two rows of a table with distinct ids that share an id are the same
row. -/
theorem eq_of_nodup_ids (db : List Order) (hnd : (db.map Order.id).Nodup)
    (r o : Order) (hr : r ∈ db) (ho : o ∈ db) (hid : r.id = o.id) : r = o := by
  induction db with
  | nil => cases hr
  | cons a l ih =>
    rw [List.map_cons] at hnd
    have h2 := List.nodup_cons.mp hnd
    rcases List.mem_cons.mp hr with rfl | hr2
    · rcases List.mem_cons.mp ho with rfl | ho2
      · rfl
      · have hmem : o.id ∈ l.map Order.id := List.mem_map.mpr ⟨o, ho2, rfl⟩
        rw [← hid] at hmem
        exact absurd hmem h2.1
    · rcases List.mem_cons.mp ho with rfl | ho2
      · have hmem : r.id ∈ l.map Order.id := List.mem_map.mpr ⟨r, hr2, rfl⟩
        rw [hid] at hmem
        exact absurd hmem h2.1
      · exact ih h2.2 hr2 ho2

/-- C8: on a payment.refunded webhook event the order is resolved by its
stored payment reference and both status and payment_status are set to
refunded in one update with a 200 acknowledgment; the write is idempotent
(applying the handler again changes nothing), and applying it after a
synchronous refund already set both fields to refunded leaves the table
exactly as it was. -/
theorem webhook_refunded_confirmation :
    (∀ (db : List Order) (pid : Nat) (o : Order),
      getOrderByPaymentId db (Nat.repr pid) = some o →
      webhookRefundedHandler db pid = (200, db.map (markRefundedRow o.id)))
    ∧ (∀ (db : List Order) (pid : Nat),
      webhookRefundedHandler (webhookRefundedHandler db pid).2 pid
        = webhookRefundedHandler db pid)
    ∧ (∀ (db : List Order) (pid : Nat) (o : Order),
      (db.map Order.id).Nodup →
      getOrderByPaymentId db (Nat.repr pid) = some o →
      o.status = "refunded" → o.payment_status = some "refunded" →
      webhookRefundedHandler db pid = (200, db)) := by
  refine ⟨?_, ?_, ?_⟩
  · intro db pid o hfind
    simp [webhookRefundedHandler, hfind]
  · intro db pid
    cases hfind : getOrderByPaymentId db (Nat.repr pid) with
    | none => simp [webhookRefundedHandler, hfind]
    | some o =>
      simp only [webhookRefundedHandler, hfind]
      have h2 : getOrderByPaymentId (db.map (markRefundedRow o.id)) (Nat.repr pid)
          = some (markRefundedRow o.id o) := by
        rw [getOrderByPaymentId_map _ (markRefundedRow_payment o.id) db (Nat.repr pid),
          hfind]
        rfl
      simp only [h2, markRefundedRow_id, List.map_map]
      have h3 : db.map (markRefundedRow o.id ∘ markRefundedRow o.id)
          = db.map (markRefundedRow o.id) := by
        apply List.map_congr_left
        intro r _
        exact markRefundedRow_idem o.id r
      rw [h3]
  · intro db pid o hnd hfind hs hps
    have h1 : List.find? (fun r => r.mercadopago_payment_id == some (Nat.repr pid)) db
        = some o := hfind
    have homem : o ∈ db := List.mem_of_find?_eq_some h1
    simp only [webhookRefundedHandler, hfind]
    have hmap : db.map (markRefundedRow o.id) = db := by
      conv_rhs => rw [← List.map_id db]
      apply List.map_congr_left
      intro r hr
      unfold markRefundedRow
      by_cases hb : (r.id == o.id) = true
      · have hro : r = o := eq_of_nodup_ids db hnd r o hr homem (by simpa using hb)
        subst hro
        cases r
        simp only [List.map_id, id]
        simp_all
      · simp [hb]
    rw [hmap]

/-- Witness for C8 (third conjunct): a concrete order already refunded by
the synchronous path is untouched by the webhook confirmation. -/
theorem webhook_refunded_confirmation_witness :
    webhookRefundedHandler
        [{ sampleOrder with status := "refunded",
                            payment_status := some "refunded" }] 5
      = (200, [{ sampleOrder with status := "refunded",
                                  payment_status := some "refunded" }]) :=
  webhook_refunded_confirmation.2.2
    [{ sampleOrder with status := "refunded", payment_status := some "refunded" }]
    5 { sampleOrder with status := "refunded", payment_status := some "refunded" }
    (by decide) (by decide) rfl rfl

/-- Evaluation of requestRefund on the success path: every precondition
passes, the gateway refund succeeds and returns a nonzero refund id. -/
theorem requestRefund_success_eq (db : List Order) (oid : Nat) (amt : Option Rat)
    (o : Order) (r : RefundResult) (rid : Nat)
    (ho : getOrder db oid = some o)
    (hp : truthyStr o.payment_id = true)
    (hrf : truthyStr o.refund_id = false)
    (hst : o.status ≠ "refunded")
    (hv : ¬(truthyNum amt = true ∧ (amt.getD 0 ≤ 0 ∨ o.total < amt.getD 0)))
    (hrid : r.id = some rid) (h0 : rid ≠ 0) :
    requestRefund db oid amt (.ok r) =
      ⟨.refundSuccess rid r.status (jsOrNum r.amount o.total)
          (if r.status = some "approved" then "Reembolso procesado exitosamente"
           else "Reembolso en proceso"),
        db.map (refundUpdateRow oid
          (if o.total ≤ jsOrNum r.amount o.total then "refunded"
           else "partially_refunded")
          rid (jsOrNum r.amount o.total) r.status),
        true, if truthyNum amt then amt else none⟩ := by
  simp only [requestRefund, ho]
  rw [if_neg (by simp [hp]), if_neg (by simp [hrf]), if_neg hst, if_neg hv]
  simp only [hrid]
  rw [if_neg h0]

/-- Evaluation of requestRefund when every precondition passes and the
gateway refund call fails. -/
theorem requestRefund_gwError_eq (db : List Order) (oid : Nat) (amt : Option Rat)
    (o : Order) (e : GatewayError)
    (ho : getOrder db oid = some o)
    (hp : truthyStr o.payment_id = true)
    (hrf : truthyStr o.refund_id = false)
    (hst : o.status ≠ "refunded")
    (hv : ¬(truthyNum amt = true ∧ (amt.getD 0 ≤ 0 ∨ o.total < amt.getD 0))) :
    requestRefund db oid amt (.error e) =
      ⟨if e.status = some 400 then .notRefundable e.message
        else if e.status = some 404 then .paymentNotFoundAtGateway
        else .refundFailed e.message,
        db, true, if truthyNum amt then amt else none⟩ := by
  simp only [requestRefund, ho]
  rw [if_neg (by simp [hp]), if_neg (by simp [hrf]), if_neg hst, if_neg hv]
  split_ifs <;> rfl

/-- C3 counterexample: a refund request with the explicit amount 0 (an
amount less than or equal to zero) is not rejected with
InvalidRefundAmount: the JS truthiness test `if (amount)` skips the range
validation, the gateway is called, and the call proceeds as a full
refund. -/
theorem refund_zero_amount_counterexample :
    (requestRefund [sampleOrder] 1 (some 0)
        (.ok ⟨some 9, some "approved", none⟩)).gatewayCalled = true
    ∧ (requestRefund [sampleOrder] 1 (some 0)
        (.ok ⟨some 9, some "approved", none⟩)).response
      = .refundSuccess 9 (some "approved") 200 "Reembolso procesado exitosamente"
    ∧ (requestRefund [sampleOrder] 1 (some 0)
        (.ok ⟨some 9, some "approved", none⟩)).gatewayAmount = none := by
  refine ⟨rfl, rfl, rfl⟩

/-- C3 (amended): with the earlier preconditions passing, an explicit
amount is rejected with InvalidRefundAmount (no state change, no gateway
call) for every negative amount and for every nonzero amount above
order.total; the amount 0, being JS-falsy, is instead treated as if no
amount were given (full-refund path); and at the boundary
amount = order.total the request is accepted and produces status
refunded, the new status being refunded exactly when the refunded amount
is at least order.total. -/
theorem refund_amount_validation (db : List Order) (oid : Nat) (o : Order)
    (a : Rat) (gw gw2 : Except GatewayError RefundResult) (r : RefundResult)
    (rid : Nat)
    (ho : getOrder db oid = some o)
    (hp : truthyStr o.payment_id = true)
    (hrf : truthyStr o.refund_id = false)
    (hst : o.status ≠ "refunded") :
    (a < 0 ∨ (a ≠ 0 ∧ o.total < a) →
      requestRefund db oid (some a) gw
        = ⟨.invalidRefundAmount o.total, db, false, none⟩)
    ∧ requestRefund db oid (some 0) gw2 = requestRefund db oid none gw2
    ∧ (0 < o.total → r.id = some rid → rid ≠ 0 → r.amount = some o.total →
      (requestRefund db oid (some o.total) (.ok r)).response
          = .refundSuccess rid r.status o.total
              (if r.status = some "approved" then "Reembolso procesado exitosamente"
               else "Reembolso en proceso")
      ∧ (getOrder (requestRefund db oid (some o.total) (.ok r)).db oid).map
            Order.status = some "refunded") := by
  refine ⟨?_, ?_, ?_⟩
  · intro hba
    have htr : truthyNum (some a) = true := by
      rcases hba with hneg | ⟨hne, _⟩
      · simp [truthyNum]; intro h; rw [h] at hneg; exact absurd hneg (by norm_num)
      · simp [truthyNum, hne]
    have hcond : truthyNum (some a) = true ∧
        ((some a : Option Rat).getD 0 ≤ 0 ∨ o.total < (some a : Option Rat).getD 0) := by
      refine ⟨htr, ?_⟩
      rcases hba with hneg | ⟨_, hgt⟩
      · left; simpa using le_of_lt hneg
      · right; simpa using hgt
    simp only [requestRefund, ho]
    rw [if_neg (by simp [hp]), if_neg (by simp [hrf]), if_neg hst, if_pos hcond]
  · have h0 : truthyNum (some 0) = false := by decide
    have hn : truthyNum none = false := by decide
    simp only [requestRefund]
    cases hq : getOrder db oid with
    | none => rfl
    | some q => simp [h0, hn]
  · intro hpos hrid h0 hamt
    have hv : ¬(truthyNum (some o.total) = true ∧
        ((some o.total : Option Rat).getD 0 ≤ 0 ∨
          o.total < (some o.total : Option Rat).getD 0)) := by
      simp only [Option.getD_some]
      intro hc
      rcases hc.2 with hle | hlt
      · exact absurd hpos (not_lt.mpr hle)
      · exact absurd hlt (lt_irrefl _)
    rw [requestRefund_success_eq db oid (some o.total) o r rid ho hp hrf hst hv hrid h0]
    have hja : jsOrNum r.amount o.total = o.total := by
      rw [hamt]
      by_cases hz : o.total = 0 <;> simp [jsOrNum, hz]
    constructor
    · simp [hja]
    · rw [getOrder_map _
        (fun q => by unfold refundUpdateRow; by_cases hq : (q.id == oid) = true <;> simp [hq])
        db oid, ho]
      have hid : o.id = oid := by simpa using getOrder_eq_some_beq db oid o ho
      simp [refundUpdateRow, hid, hja]

/-- Witness for the amended C3: the negative amount -1 is rejected on a
concrete order. -/
theorem refund_amount_validation_witness :
    requestRefund [sampleOrder] 1 (some (-1))
        (.ok ⟨some 9, some "approved", none⟩)
      = ⟨.invalidRefundAmount 200, [sampleOrder], false, none⟩ :=
  ((refund_amount_validation [sampleOrder] 1 sampleOrder (-1)
      (.ok ⟨some 9, some "approved", none⟩) (.ok ⟨some 9, some "approved", none⟩)
      ⟨some 9, some "approved", none⟩ 9 (by decide) (by decide) (by decide)
      (by decide)).1) (Or.inl (by norm_num))

theorem refundUpdateRow_id (oid : Nat) (ns : String) (rid : Nat) (ra : Money)
    (rs : Option String) (o : Order) :
    (refundUpdateRow oid ns rid ra rs o).id = o.id := by
  unfold refundUpdateRow
  by_cases hb : (o.id == oid) = true <;> simp [hb]

/-- C4: requestRefund validates its preconditions in source order with the
first failure winning: missing order gives OrderNotFound; a missing
payment reference gives NoAssociatedPayment; an existing refund reference
gives AlreadyRefunded carrying that reference; a status already refunded
gives AlreadyRefunded; and after one successful refund any second request
is rejected as AlreadyRefunded with the stored reference and without
touching the table, so refund_reference is set at most once. -/
theorem refund_preconditions_order :
    (∀ (db : List Order) (oid : Nat) (amt : Option Rat)
        (gw : Except GatewayError RefundResult),
      getOrder db oid = none →
      requestRefund db oid amt gw = ⟨.orderNotFound, db, false, none⟩)
    ∧ (∀ (db : List Order) (oid : Nat) (amt : Option Rat)
        (gw : Except GatewayError RefundResult) (o : Order),
      getOrder db oid = some o → truthyStr o.payment_id = false →
      requestRefund db oid amt gw = ⟨.noAssociatedPayment, db, false, none⟩)
    ∧ (∀ (db : List Order) (oid : Nat) (amt : Option Rat)
        (gw : Except GatewayError RefundResult) (o : Order),
      getOrder db oid = some o → truthyStr o.payment_id = true →
      truthyStr o.refund_id = true →
      requestRefund db oid amt gw
        = ⟨.alreadyRefundedRef (o.refund_id.getD ""), db, false, none⟩)
    ∧ (∀ (db : List Order) (oid : Nat) (amt : Option Rat)
        (gw : Except GatewayError RefundResult) (o : Order),
      getOrder db oid = some o → truthyStr o.payment_id = true →
      truthyStr o.refund_id = false → o.status = "refunded" →
      requestRefund db oid amt gw = ⟨.alreadyRefundedStatus, db, false, none⟩)
    ∧ (∀ (db : List Order) (oid : Nat) (amt amt2 : Option Rat)
        (gw2 : Except GatewayError RefundResult) (o : Order) (r : RefundResult)
        (rid : Nat),
      getOrder db oid = some o → truthyStr o.payment_id = true →
      truthyStr o.refund_id = false → o.status ≠ "refunded" →
      ¬(truthyNum amt = true ∧ (amt.getD 0 ≤ 0 ∨ o.total < amt.getD 0)) →
      r.id = some rid → rid ≠ 0 →
      requestRefund (requestRefund db oid amt (.ok r)).db oid amt2 gw2
        = ⟨.alreadyRefundedRef (Nat.repr rid),
            (requestRefund db oid amt (.ok r)).db, false, none⟩) := by
  refine ⟨?_, ?_, ?_, ?_, ?_⟩
  · intro db oid amt gw hnone
    simp [requestRefund, hnone]
  · intro db oid amt gw o ho hp2
    simp only [requestRefund, ho]
    rw [if_pos (by simp [hp2])]
  · intro db oid amt gw o ho hp hrt
    simp only [requestRefund, ho]
    rw [if_neg (by simp [hp]), if_pos hrt]
  · intro db oid amt gw o ho hp hrf hrs
    simp only [requestRefund, ho]
    rw [if_neg (by simp [hp]), if_neg (by simp [hrf]), if_pos hrs]
  · intro db oid amt amt2 gw2 o r rid ho hp hrf hst hv hrid hr0
    have hdb : (requestRefund db oid amt (.ok r)).db
        = db.map (refundUpdateRow oid
            (if o.total ≤ jsOrNum r.amount o.total then "refunded"
             else "partially_refunded")
            rid (jsOrNum r.amount o.total) r.status) := by
      rw [requestRefund_success_eq db oid amt o r rid ho hp hrf hst hv hrid hr0]
    rw [hdb]
    have hid : o.id = oid := by simpa using getOrder_eq_some_beq db oid o ho
    have hlook : getOrder (db.map (refundUpdateRow oid
        (if o.total ≤ jsOrNum r.amount o.total then "refunded"
         else "partially_refunded")
        rid (jsOrNum r.amount o.total) r.status)) oid
        = some { o with
            status := if o.total ≤ jsOrNum r.amount o.total then "refunded"
                      else "partially_refunded",
            payment_status := some "refunded",
            refund_id := some (Nat.repr rid), refunded_at := true,
            refund_amount := some (jsOrNum r.amount o.total),
            refund_status := r.status } := by
      rw [getOrder_map _ (refundUpdateRow_id oid _ rid _ r.status) db oid, ho]
      simp [refundUpdateRow, hid]
    simp only [requestRefund, hlook]
    rw [if_neg (by simp [hp]), if_pos (truthyStr_repr rid)]
    simp

/-- Witness for C4 (fifth conjunct): on a concrete order a second refund
request after a successful full refund is rejected with the stored
reference and no change. -/
theorem refund_preconditions_order_witness :
    requestRefund
        (requestRefund [sampleOrder] 1 none
          (.ok ⟨some 9, some "approved", none⟩)).db 1 none
        (.ok ⟨some 9, some "approved", none⟩)
      = ⟨.alreadyRefundedRef (Nat.repr 9),
          (requestRefund [sampleOrder] 1 none
            (.ok ⟨some 9, some "approved", none⟩)).db, false, none⟩ :=
  refund_preconditions_order.2.2.2.2 [sampleOrder] 1 none none
    (.ok ⟨some 9, some "approved", none⟩) sampleOrder
    ⟨some 9, some "approved", none⟩ 9 (by decide) (by decide) (by decide)
    (by decide) (by decide) (by decide) (by decide)

/-- C9: when the gateway refund call fails the order table is left
completely unchanged; when the failure is reached (all preconditions
passed) it is mapped by gateway status 400 to NotRefundable, 404 to
PaymentNotFoundAtGateway and anything else to the generic RefundFailed
carrying the original message; and the table changes only when the
gateway call succeeded and returned a (nonzero) refund id. -/
theorem refund_gateway_failure_handling :
    (∀ (db : List Order) (oid : Nat) (amt : Option Rat) (ge : GatewayError),
      (requestRefund db oid amt (.error ge)).db = db)
    ∧ (∀ (db : List Order) (oid : Nat) (amt : Option Rat) (ge : GatewayError)
        (o : Order),
      getOrder db oid = some o → truthyStr o.payment_id = true →
      truthyStr o.refund_id = false → o.status ≠ "refunded" →
      ¬(truthyNum amt = true ∧ (amt.getD 0 ≤ 0 ∨ o.total < amt.getD 0)) →
      requestRefund db oid amt (.error ge)
        = ⟨if ge.status = some 400 then .notRefundable ge.message
           else if ge.status = some 404 then .paymentNotFoundAtGateway
           else .refundFailed ge.message,
          db, true, if truthyNum amt then amt else none⟩)
    ∧ (∀ (db : List Order) (oid : Nat) (amt : Option Rat)
        (gw : Except GatewayError RefundResult),
      (requestRefund db oid amt gw).db ≠ db →
      ∃ r rid, gw = .ok r ∧ r.id = some rid ∧ rid ≠ 0) := by
  refine ⟨?_, ?_, ?_⟩
  · intro db oid amt ge
    cases ho : getOrder db oid with
    | none => simp [requestRefund, ho]
    | some o =>
      simp only [requestRefund, ho]
      split_ifs <;> rfl
  · intro db oid amt ge o ho hp hrf hst hv
    exact requestRefund_gwError_eq db oid amt o ge ho hp hrf hst hv
  · intro db oid amt gw hne
    cases gw with
    | error e =>
      exfalso
      apply hne
      cases ho : getOrder db oid with
      | none => simp [requestRefund, ho]
      | some o =>
        simp only [requestRefund, ho]
        split_ifs <;> rfl
    | ok r =>
      cases hr : r.id with
      | none =>
        exfalso
        apply hne
        cases ho : getOrder db oid with
        | none => simp [requestRefund, ho]
        | some o =>
          simp only [requestRefund, ho, hr]
          split_ifs <;> rfl
      | some rid =>
        by_cases h0 : rid = 0
        · subst h0
          exfalso
          apply hne
          cases ho : getOrder db oid with
          | none => simp [requestRefund, ho]
          | some o =>
            simp only [requestRefund, ho, hr]
            split_ifs <;> rfl
        · exact ⟨r, rid, rfl, hr, h0⟩

/-- Witness for C9 (second conjunct): a concrete gateway 400 maps to
NotRefundable with no change. -/
theorem refund_gateway_failure_handling_witness :
    requestRefund [sampleOrder] 1 none (.error ⟨some 400, "cc_rejected"⟩)
      = ⟨.notRefundable "cc_rejected", [sampleOrder], true, none⟩ :=
  refund_gateway_failure_handling.2.1 [sampleOrder] 1 none
    ⟨some 400, "cc_rejected"⟩ sampleOrder (by decide) (by decide) (by decide)
    (by decide) (by decide)

/-- A successful product lookup returns a row whose id matches the key. -/
theorem getProductById_eq_some_beq (ps : List Product) (pid : Nat) (p : Product)
    (h : getProductById ps pid = some p) : (p.id == pid) = true := by
  have h1 : List.find? (fun q => q.id == pid) ps = some p := h
  have h2 := List.find?_some h1
  exact h2

/-- The whole sequence of per-line stock decrements of the createOrder
transaction equals one map subtracting, from each product, the total
quantity requested for it. -/
theorem foldl_decrementStock (items : List PricedItem) (ps : List Product) :
    items.foldl (fun acc it => decrementStock acc it.product_id it.quantity) ps
      = ps.map (fun p =>
          { p with stock := p.stock - (reqQtyPriced items p.id : Int) }) := by
  induction items generalizing ps with
  | nil =>
    simp only [List.foldl_nil]
    have h1 : ∀ p ∈ ps,
        ({ p with stock := p.stock - (reqQtyPriced [] p.id : Int) }) = p := by
      intro p _
      cases p
      simp [reqQtyPriced]
    rw [List.map_congr_left h1]
    simp
  | cons it rest ih =>
    rw [List.foldl_cons, ih (decrementStock ps it.product_id it.quantity)]
    unfold decrementStock
    rw [List.map_map]
    apply List.map_congr_left
    intro p _
    simp only [Function.comp]
    by_cases hb : p.id = it.product_id
    · cases p
      simp only [] at hb
      simp [reqQtyPriced, hb]
      omega
    · cases p
      simp only [] at hb
      simp [reqQtyPriced, hb, fun h : it.product_id = _ => hb h.symm]
      intro he
      exact absurd he.symm hb

/-- If product `i` is requested by no line, nothing is subtracted for
it. -/
theorem reqQtyPriced_eq_zero (items : List PricedItem) (i : Nat)
    (h : i ∉ items.map PricedItem.product_id) : reqQtyPriced items i = 0 := by
  induction items with
  | nil => rfl
  | cons it rest ih =>
    simp only [List.map_cons, List.mem_cons] at h
    push_neg at h
    have hne : ¬ it.product_id = i := fun he => h.1 he.symm
    simp [reqQtyPriced, hne, ih h.2]

/-- When the validation loop succeeds, every priced line's product exists
in the catalog read and its quantity is at most that product's stock as
read before the transaction. -/
theorem checkAndPriceItems_ok_bound (ps : List Product)
    (items : List OrderLineReq) (pr : List PricedItem) (total : Money)
    (h : checkAndPriceItems ps items = .ok (pr, total)) :
    ∀ it ∈ pr, ∃ p, getProductById ps it.product_id = some p
      ∧ (it.quantity : Int) ≤ p.stock := by
  induction items generalizing pr total with
  | nil =>
    simp only [checkAndPriceItems] at h
    have hpr : pr = [] := by
      cases h
      rfl
    subst hpr
    intro it hit
    cases hit
  | cons item rest ih =>
    simp only [checkAndPriceItems] at h
    cases hfind : getProductById ps item.product_id with
    | none =>
      simp only [hfind] at h
      exact absurd h (by simp)
    | some product =>
      simp only [hfind] at h
      by_cases hstock : product.stock < (item.quantity : Int)
      · rw [if_pos hstock] at h
        exact absurd h (by simp)
      · rw [if_neg hstock] at h
        cases hrest : checkAndPriceItems ps rest with
        | error e =>
          simp only [hrest] at h
          exact absurd h (by simp)
        | ok pt =>
          obtain ⟨prs, tot⟩ := pt
          simp only [hrest] at h
          simp only [Except.ok.injEq, Prod.mk.injEq] at h
          intro it hit
          rw [← h.1] at hit
          rcases List.mem_cons.mp hit with rfl | hmem
          · have hpid : product.id = item.product_id := by
              simpa using getProductById_eq_some_beq ps item.product_id product hfind
            refine ⟨product, ?_, by simpa using not_lt.mp hstock⟩
            show getProductById ps product.id = some product
            rw [hpid]
            exact hfind
          · exact ih prs tot hrest it hmem

/-- When the validation loop succeeds, the priced lines carry the same
product ids as the request lines, in order. -/
theorem checkAndPriceItems_ok_pids (ps : List Product)
    (items : List OrderLineReq) (pr : List PricedItem) (total : Money)
    (h : checkAndPriceItems ps items = .ok (pr, total)) :
    pr.map PricedItem.product_id = items.map OrderLineReq.product_id := by
  induction items generalizing pr total with
  | nil =>
    simp only [checkAndPriceItems] at h
    cases h
    rfl
  | cons item rest ih =>
    simp only [checkAndPriceItems] at h
    cases hfind : getProductById ps item.product_id with
    | none =>
      simp only [hfind] at h
      exact absurd h (by simp)
    | some product =>
      simp only [hfind] at h
      by_cases hstock : product.stock < (item.quantity : Int)
      · rw [if_pos hstock] at h
        exact absurd h (by simp)
      · rw [if_neg hstock] at h
        cases hrest : checkAndPriceItems ps rest with
        | error e =>
          simp only [hrest] at h
          exact absurd h (by simp)
        | ok pt =>
          obtain ⟨prs, tot⟩ := pt
          simp only [hrest] at h
          simp only [Except.ok.injEq, Prod.mk.injEq] at h
          have hpid : product.id = item.product_id := by
            simpa using getProductById_eq_some_beq ps item.product_id product hfind
          rw [← h.1]
          simp only [List.map_cons]
          rw [ih prs tot hrest]
          simp [hpid]

/-- With pairwise-distinct requested products and distinct catalog ids,
the total quantity requested for a member product is bounded by its
pre-transaction stock. -/
theorem reqQtyPriced_le_stock (pr : List PricedItem) (ps : List Product)
    (hbound : ∀ it ∈ pr, ∃ q, getProductById ps it.product_id = some q
        ∧ (it.quantity : Int) ≤ q.stock)
    (hnd : (pr.map PricedItem.product_id).Nodup)
    (hndps : (ps.map Product.id).Nodup)
    (p : Product) (hp : p ∈ ps) (hpos : 0 ≤ p.stock) :
    (reqQtyPriced pr p.id : Int) ≤ p.stock := by
  induction pr with
  | nil => simpa [reqQtyPriced] using hpos
  | cons it rest ih =>
    rw [List.map_cons] at hnd
    have hnd2 := List.nodup_cons.mp hnd
    by_cases hb : it.product_id = p.id
    · obtain ⟨q, hq, hle⟩ := hbound it (List.mem_cons_self it rest)
      rw [hb] at hq
      rw [getProductById_of_nodup ps hndps p hp] at hq
      have hqp : q = p := by
        cases hq
        rfl
      rw [hqp] at hle
      have hzero : reqQtyPriced rest p.id = 0 := by
        apply reqQtyPriced_eq_zero
        rw [← hb]
        exact hnd2.1
      simp only [reqQtyPriced, if_pos hb, hzero, Nat.add_zero]
      exact hle
    · have hrest : (reqQtyPriced rest p.id : Int) ≤ p.stock :=
        ih (fun q hq => hbound q (List.mem_cons_of_mem it hq)) hnd2.2
      simpa [reqQtyPriced, hb] using hrest

/-- One POST /api/orders call with pairwise-distinct requested products
keeps every stock nonnegative (a failed call leaves the store as it
was). -/
theorem postOrders_step_stock (s : Store) (name email : String)
    (items : List OrderLineReq)
    (hndps : (s.products.map Product.id).Nodup)
    (hndreq : (items.map OrderLineReq.product_id).Nodup)
    (hpos : ∀ p ∈ s.products, 0 ≤ p.stock) :
    ∀ p ∈ (postOrdersHandler s name email items).2.products, 0 ≤ p.stock := by
  unfold postOrdersHandler
  cases h : checkAndPriceItems s.products items with
  | error e =>
    intro p hp
    exact hpos p hp
  | ok pt =>
    obtain ⟨pr, tot⟩ := pt
    simp only [createOrder]
    intro p hp
    rw [foldl_decrementStock] at hp
    obtain ⟨q, hq, rfl⟩ := List.mem_map.mp hp
    have hbound := checkAndPriceItems_ok_bound s.products items pr tot h
    have hndpr : (pr.map PricedItem.product_id).Nodup := by
      rw [checkAndPriceItems_ok_pids s.products items pr tot h]
      exact hndreq
    have hle := reqQtyPriced_le_stock pr s.products hbound hndpr hndps q hq (hpos q hq)
    exact sub_nonneg.mpr hle

/-- A POST /api/orders call never adds, removes or re-keys catalog rows:
the product id column is untouched. -/
theorem postOrders_products_pids (s : Store) (name email : String)
    (items : List OrderLineReq) :
    (postOrdersHandler s name email items).2.products.map Product.id
      = s.products.map Product.id := by
  unfold postOrdersHandler
  cases h : checkAndPriceItems s.products items with
  | error e => rfl
  | ok pt =>
    obtain ⟨pr, tot⟩ := pt
    simp only [createOrder]
    rw [foldl_decrementStock, List.map_map]
    apply List.map_congr_left
    intro p _
    rfl

/-- C2 counterexample: a single createOrder call whose two lines both
request the stock-1 product passes the per-line sufficiency check twice
against the same pre-transaction catalog read, succeeds, and leaves that
product's stock at -1: the check and the decrement are not one
all-or-nothing atomic unit, and stock does not remain nonnegative. -/
theorem createOrder_oversell_counterexample :
    (postOrdersHandler sampleStore "Ana" "ana@example.com"
        [⟨1, 1⟩, ⟨1, 1⟩]).2.products.map Product.stock = [-1]
    ∧ ∃ o, (postOrdersHandler sampleStore "Ana" "ana@example.com"
        [⟨1, 1⟩, ⟨1, 1⟩]).1 = .ok o := by
  constructor
  · rfl
  · exact ⟨_, rfl⟩

/-- C2 (amended): order creation checks stock per line against the catalog
read taken before the transaction and decrements unconditionally inside
it. A creation that fails validation returns before the transaction,
leaving the store unchanged (no partial order, no partial decrement); and
when every request's lines reference pairwise-distinct products (catalog
ids being unique), every product's stock remains nonnegative after any
sequence of createOrder calls. A request repeating a product across lines
(or an interleaving of concurrent requests) can drive stock below zero,
because the sufficiency check and the decrement do not form one atomic
read-then-write unit. -/
theorem createOrder_stock_safety :
    (∀ (s : Store) (name email : String) (items : List OrderLineReq)
        (e : CreateOrderFailure),
      checkAndPriceItems s.products items = .error e →
      postOrdersHandler s name email items = (.error e, s))
    ∧ (∀ (s : Store) (name email : String) (items : List OrderLineReq),
      (s.products.map Product.id).Nodup →
      (items.map OrderLineReq.product_id).Nodup →
      (∀ p ∈ s.products, 0 ≤ p.stock) →
      ∀ p ∈ (postOrdersHandler s name email items).2.products, 0 ≤ p.stock)
    ∧ (∀ (s : Store) (reqs : List (String × String × List OrderLineReq)),
      (s.products.map Product.id).Nodup →
      (∀ r ∈ reqs, (r.2.2.map OrderLineReq.product_id).Nodup) →
      (∀ p ∈ s.products, 0 ≤ p.stock) →
      ∀ p ∈ (runOrders s reqs).products, 0 ≤ p.stock) := by
  refine ⟨?_, ?_, ?_⟩
  · intro s name email items e h
    simp [postOrdersHandler, h]
  · intro s name email items h1 h2 h3
    exact postOrders_step_stock s name email items h1 h2 h3
  · intro s reqs
    induction reqs generalizing s with
    | nil =>
      intro h1 h2 h3
      simpa [runOrders] using h3
    | cons r rest ih =>
      intro h1 h2 h3
      have hstep := postOrders_step_stock s r.1 r.2.1 r.2.2 h1
        (h2 r (List.mem_cons_self r rest)) h3
      have hpids : ((postOrdersHandler s r.1 r.2.1 r.2.2).2.products.map
          Product.id).Nodup := by
        rw [postOrders_products_pids]
        exact h1
      have hrest : ∀ q ∈ rest, (q.2.2.map OrderLineReq.product_id).Nodup :=
        fun q hq => h2 q (List.mem_cons_of_mem r hq)
      have hfin := ih ((postOrdersHandler s r.1 r.2.1 r.2.2).2) hpids hrest hstep
      simpa [runOrders, List.foldl_cons] using hfin

/-- Witness for the amended C2 (first conjunct): a request for an unknown
product fails and returns the store unchanged. -/
theorem createOrder_stock_safety_witness :
    postOrdersHandler sampleStore "Ana" "ana@example.com" [⟨2, 1⟩]
      = (.error (.productNotFound 2), sampleStore) :=
  createOrder_stock_safety.1 sampleStore "Ana" "ana@example.com" [⟨2, 1⟩]
    (.productNotFound 2) rfl

end MPBack
